import Mathlib

/-!
Verification of the Supurgi-v3 backtest engine specification against a
shallow embedding of the source code.

Conventions of the embedding:
* Python floats for prices, sizes and money are modelled as rationals.
* Timestamps (datetime values) are modelled as integers; for the data-feed
  module the unit is minutes, so the fixed overlap window
  timedelta(minutes=10) is the integer 10.
* A Python value that may be None is an Option.
* Methods that mutate an object in place become functions returning the
  updated value; methods that may raise return the unchanged value paired
  with an Option String error, or an Except String result.
-/

namespace Supurgi

/-- Trade status enumeration (trading/trade.py, class TradeStatus). -/
inductive TradeStatus
  | PENDING
  | OPEN
  | CLOSED
  | CANCELLED
  | REJECTED
  deriving DecidableEq

/-- Trade direction enumeration (trading/trade.py, class TradeDirection). -/
inductive TradeDirection
  | BUY
  | SELL
  deriving DecidableEq

/-- Order type enumeration (trading/trade.py, class OrderType). -/
inductive OrderType
  | MARKET
  | LIMIT
  | STOP
  deriving DecidableEq

/-- Reason for closing a trade (trading/trade.py, class CloseReason). -/
inductive CloseReason
  | TAKE_PROFIT
  | STOP_LOSS
  | MANUAL
  | STRATEGY
  | BROKER
  deriving DecidableEq

/-- The Trade entity (trading/trade.py, class Trade).  Field defaults mirror
the constructor: a fresh trade is PENDING with order type MARKET and all
execution fields unset.  The private attribute storing profit is kept as
`_profit`; the public `profit` property is the function `Trade.profit`. -/
structure Trade where
  symbol : String
  direction : TradeDirection
  signal_strength : Option ℚ := none
  stop_loss : Option ℚ := none
  take_profit : Option ℚ := none
  status : TradeStatus := .PENDING
  id : Option ℕ := none
  size : Option ℚ := none
  order_type : OrderType := .MARKET
  entry_price : Option ℚ := none
  open_time : Option ℤ := none
  close_time : Option ℤ := none
  executed_price : Option ℚ := none
  close_price : Option ℚ := none
  close_reason : Option CloseReason := none
  _profit : Option ℚ := none
  commission : ℚ := 0
  swap : ℚ := 0
  rejection_reason : Option String := none
  deriving DecidableEq

/-- The `profit` property of Trade: the stored value, or 0.0 if not set. -/
def Trade.profit (t : Trade) : ℚ :=
  t._profit.getD 0

/-- The valid_transitions table of Trade.update_status. -/
def validTransitions : TradeStatus → List TradeStatus
  | .PENDING => [.OPEN, .CANCELLED, .REJECTED]
  | .OPEN => [.CLOSED, .CANCELLED]
  | .CLOSED => []
  | .CANCELLED => []
  | .REJECTED => []

/-- The keyword arguments accepted by Trade.update_status.  A field that is
`none` models the keyword being absent from kwargs. -/
structure UpdateKwargs where
  executed_price : Option ℚ := none
  open_time : Option ℤ := none
  close_price : Option ℚ := none
  profit : Option ℚ := none
  close_time : Option ℤ := none
  close_reason : Option CloseReason := none
  rejection_reason : Option String := none
  deriving DecidableEq

/-- Trade.update_status (trading/trade.py).  The `now` argument stands for
datetime.datetime.now(), used as the default open or close time.  The result
pairs the trade with an optional error: on error (a raised ValueError) the
returned trade is the receiver unchanged, which is faithful because every
raise in the source occurs before any field assignment. -/
def Trade.update_status (t : Trade) (new_status : TradeStatus)
    (kwargs : UpdateKwargs) (now : ℤ) : Trade × Option String :=
  if new_status ∉ validTransitions t.status then
    (t, some "Invalid status transition")
  else if new_status = .OPEN then
    match kwargs.executed_price with
    | none => (t, some "executed_price is required to open a trade")
    | some ep =>
        ({ t with executed_price := some ep,
                  open_time := some (kwargs.open_time.getD now),
                  status := new_status }, none)
  else if new_status = .CLOSED then
    match kwargs.close_price with
    | none => (t, some "close_price is required to close a trade")
    | some cp =>
        match kwargs.profit with
        | none => (t, some "profit is required to close a trade")
        | some pr =>
            ({ t with close_price := some cp,
                      _profit := some pr,
                      close_time := some (kwargs.close_time.getD now),
                      close_reason := some (kwargs.close_reason.getD .MANUAL),
                      status := new_status }, none)
  else if new_status = .REJECTED then
    ({ t with rejection_reason := some (kwargs.rejection_reason.getD "Unknown"),
              status := new_status }, none)
  else
    ({ t with status := new_status }, none)

/-- Trade.set_size (trading/trade.py): fails on a non-positive size. -/
def Trade.set_size (t : Trade) (size : ℚ) : Trade × Option String :=
  if size ≤ 0 then (t, some "Size must be a positive number")
  else ({ t with size := some size }, none)

/-- A bid/ask quote as returned by SimulatedBroker.get_current_price. -/
structure Quote where
  bid : ℚ
  ask : ℚ
  deriving DecidableEq

/-- The entries of a symbol configuration read by the broker; a `none` field
models the key being absent from the configuration dict, read through
dict.get with the source defaults (pip_value 0.0001, contract_size 100000). -/
structure SymbolConfig where
  pip_value : Option ℚ := none
  contract_size : Option ℚ := none

/-- The current-price environment: get_current_price for each symbol, `none`
when no price data is available for the symbol. -/
abbrev PriceFn := String → Option Quote

/-- The symbol-configuration environment (config_manager.get_symbol_config). -/
abbrev ConfigFn := String → SymbolConfig

/-- The mutable state of a SimulatedBroker during a backtest: the order and
position book, the executed-trade history, the numeric entries of the
account_info dict, the simulation clock, and the equity curve being
assembled by run_backtest (entries are (time, equity, balance)). -/
structure BState where
  open_positions : List Trade := []
  pending_orders : List Trade := []
  executed_trades : List Trade := []
  balance : ℚ
  equity : ℚ
  margin : ℚ := 0
  free_margin : ℚ
  profit : ℚ := 0
  leverage : ℚ
  current_time : Option ℤ := none
  equity_curve : List (ℤ × ℚ × ℚ) := []
  deriving DecidableEq

/-- Indexing the account_info dict.  The dict literal built in
SimulatedBroker.__init__ and rebuilt in run_backtest has exactly the keys
balance, equity, margin, free_margin, currency, profit, leverage, name,
server; currency, name and server hold strings and are never read as
numbers, so the numeric lookup covers the six numeric keys and yields `none`
(a Python KeyError) for every other key. -/
def accountInfoGet (s : BState) : String → Option ℚ
  | "balance" => some s.balance
  | "equity" => some s.equity
  | "margin" => some s.margin
  | "free_margin" => some s.free_margin
  | "profit" => some s.profit
  | "leverage" => some s.leverage
  | _ => none

/-- SimulatedBroker._calculate_position_profit.  The early returns (unset
executed_price, or no determinable close price) return 0.0 without touching
the position.  Otherwise the source computes the profit and then executes
position.profit = profit; Trade.profit is a getter-only property (class
Trade in trading/trade.py defines fget but no setter and no other
assignment hook), so that assignment raises AttributeError, modelled as the
error result.  position.size is read with default 0, standing for the
source reading the attribute directly. -/
def calcPositionProfit (price : PriceFn) (cfg : ConfigFn) (position : Trade)
    (close_price : Option ℚ) : Except String Trade :=
  match position.executed_price with
  | none => .ok position
  | some executed_price =>
    let cp : Option ℚ :=
      match close_price with
      | some c => some c
      | none =>
        match price position.symbol with
        | none => none
        | some q =>
          match position.direction with
          | .BUY => some q.bid
          | .SELL => some q.ask
    match cp with
    | none => .ok position
    | some c =>
      let pip_diff : ℚ :=
        match position.direction with
        | .BUY => c - executed_price
        | .SELL => executed_price - c
      let pip_value := (cfg position.symbol).pip_value.getD (1 / 10000)
      let contract_size := (cfg position.symbol).contract_size.getD 100000
      let p := pip_diff / pip_value * position.size.getD 0 * contract_size
      let _profit_value := p - (position.commission + position.swap)
      .error "AttributeError: property Trade.profit has no setter"

/-- SimulatedBroker._calculate_position_margin: position value over leverage,
with leverage replaced by 100 when the configured leverage is not positive;
0 when executed_price or size is unset. -/
def calcPositionMargin (cfg : ConfigFn) (leverage : ℚ) (position : Trade) : ℚ :=
  match position.executed_price, position.size with
  | some executed_price, some size =>
    let contract_size := (cfg position.symbol).contract_size.getD 100000
    let position_value := executed_price * size * contract_size
    let lev := if leverage ≤ 0 then 100 else leverage
    position_value / lev
  | _, _ => 0

/-- SimulatedBroker._update_account_info: recompute, for each open position,
the profit, sum profits and margins, and refresh the account entries.  The
loop raises (the AttributeError of _calculate_position_profit) at the first
open position having an executed price and a determinable quote; positions
skipped by the early returns keep their stale profit attribute, which is
what the loop then reads back into the total. -/
def updateAccountInfo (price : PriceFn) (cfg : ConfigFn) (s : BState) :
    Except String BState := do
  let r ← s.open_positions.foldlM (fun (acc : ℚ × ℚ × List Trade) position => do
    let p ← calcPositionProfit price cfg position none
    let m := calcPositionMargin cfg s.leverage p
    pure (acc.1 + p.profit, acc.2.1 + m, acc.2.2 ++ [p])) (0, 0, [])
  pure { s with open_positions := r.2.2,
                profit := r.1,
                margin := r.2.1,
                equity := s.balance + r.1,
                free_margin := (s.balance + r.1) - r.2.1 }

/-- Replace the first occurrence of `a` in the list by `b`; models an
in-place mutation of a list element that is aliased by a local variable. -/
def replaceFirst {α : Type} [DecidableEq α] : List α → α → α → List α
  | [], _, _ => []
  | x :: xs, a, b => if x = a then b :: xs else x :: replaceFirst xs a b

/-- The price_info dict passed to SimulatedBroker._close_position: either an
explicit close level under the key price, or a market quote. -/
structure PriceInfo where
  price : Option ℚ := none
  bid : Option ℚ := none
  ask : Option ℚ := none

/-- SimulatedBroker._close_position: set close time, pick the close price
(the explicit price key if present, else the bid for BUY or ask for SELL,
else executed_price), recompute the final profit at that price, transition
the trade to CLOSED, move it from open_positions to executed_trades, and add
the realized profit to the balance.  For a position with an executed price
the profit recompute raises (AttributeError, see calcPositionProfit) before
update_status is ever reached, so no close, removal or balance change
happens; errors raised by update_status also propagate. -/
def closePosition (price : PriceFn) (cfg : ConfigFn) (s : BState)
    (position : Trade) (price_info : PriceInfo) (close_reason : CloseReason) :
    Except String BState := do
  let ct : ℤ := s.current_time.getD 0
  let close_price : Option ℚ :=
    match price_info.price with
    | some cp => some cp
    | none =>
      match position.direction with
      | .BUY => price_info.bid <|> position.executed_price
      | .SELL => price_info.ask <|> position.executed_price
  let p1 := { position with close_time := some ct, close_price := close_price }
  let p2 ← calcPositionProfit price cfg p1 close_price
  match p2.update_status .CLOSED
      { close_price := close_price, profit := some p2.profit,
        close_reason := some close_reason, close_time := some ct } ct with
  | (p3, none) =>
    pure { s with open_positions := s.open_positions.erase position,
                  executed_trades := s.executed_trades ++ [p3],
                  balance := s.balance + p3.profit }
  | (_, some e) => .error e

/-- SimulatedBroker._check_pending_orders: iterate over a snapshot of
pending_orders; a LIMIT BUY triggers when ask is at or below entry_price, a
LIMIT SELL when bid is at or above it, a STOP BUY when ask is at or above
it, a STOP SELL when bid is at or below it; a triggered order is opened at
its entry_price and moved from pending_orders to open_positions.  An order
whose symbol has no current price is skipped; entry_price is always set for
orders accepted into pending_orders (set_entry_parameters requires it). -/
def checkPendingOrders (price : PriceFn) (s : BState) : Except String BState :=
  s.pending_orders.foldlM (fun st order =>
    match price order.symbol with
    | none => .ok st
    | some q =>
      let execution : Option ℚ :=
        match order.order_type, order.direction, order.entry_price with
        | .LIMIT, .BUY, some ep => if q.ask ≤ ep then some ep else none
        | .LIMIT, .SELL, some ep => if q.bid ≥ ep then some ep else none
        | .STOP, .BUY, some ep => if q.ask ≥ ep then some ep else none
        | .STOP, .SELL, some ep => if q.bid ≤ ep then some ep else none
        | _, _, _ => none
      match execution with
      | none => .ok st
      | some execution_price =>
        let o1 := { order with executed_price := some execution_price,
                               open_time := st.current_time }
        match o1.update_status .OPEN
            { executed_price := some execution_price,
              open_time := st.current_time } (st.current_time.getD 0) with
        | (o2, none) =>
          .ok { st with pending_orders := st.pending_orders.erase order,
                        open_positions := st.open_positions ++ [o2] }
        | (_, some e) => .error e) s

/-- SimulatedBroker._check_stop_loss_take_profit: iterate over a snapshot of
open_positions; first the mark-to-market profit recompute runs, which for a
position with an executed price and an available quote raises
(AttributeError, see calcPositionProfit) before any stop-loss or
take-profit condition is tested; only positions skipped by the early
returns of the recompute reach the tests, which close at the stop or
target level itself, stop loss checked first. -/
def checkSLTP (price : PriceFn) (cfg : ConfigFn) (s : BState) :
    Except String BState :=
  s.open_positions.foldlM (fun st position =>
    match price position.symbol with
    | none => .ok st
    | some q => do
      let p ← calcPositionProfit price cfg position none
      let st1 := { st with open_positions := replaceFirst st.open_positions position p }
      let slHit : Option ℚ :=
        match position.stop_loss with
        | none => none
        | some sl =>
          match position.direction with
          | .BUY => if q.bid ≤ sl then some sl else none
          | .SELL => if q.ask ≥ sl then some sl else none
      match slHit with
      | some sl => closePosition price cfg st1 p { price := some sl } .STOP_LOSS
      | none =>
        let tpHit : Option ℚ :=
          match position.take_profit with
          | none => none
          | some tp =>
            match position.direction with
            | .BUY => if q.bid ≥ tp then some tp else none
            | .SELL => if q.ask ≤ tp then some tp else none
        match tpHit with
        | some tp => closePosition price cfg st1 p { price := some tp } .TAKE_PROFIT
        | none => .ok st1) s

/-- The body of the replay loop of SimulatedBroker.run_backtest for one
timestamp: set current_time, check pending orders, check stop loss and take
profit, recompute the account, then append the equity-curve sample
(time, equity, balance). -/
def runTick (priceAt : ℤ → PriceFn) (cfg : ConfigFn) (s : BState) (time : ℤ) :
    Except String BState := do
  let s0 := { s with current_time := some time }
  let price := priceAt time
  let s1 ← checkPendingOrders price s0
  let s2 ← checkSLTP price cfg s1
  let s3 ← updateAccountInfo price cfg s2
  pure { s3 with equity_curve := s3.equity_curve ++ [(time, s3.equity, s3.balance)] }

/-- End-of-run epilogue of run_backtest: force-close every remaining open
position at the current price with the default close reason MANUAL, then
transition every remaining pending order to CANCELLED and drop it from
pending_orders (cancelled orders are never added to executed_trades). -/
def endOfRun (price : PriceFn) (cfg : ConfigFn) (s : BState) :
    Except String BState := do
  let s1 ← s.open_positions.foldlM (fun st position =>
    let price_info : PriceInfo :=
      match price position.symbol with
      | some q => { bid := some q.bid, ask := some q.ask }
      | none => {}
    closePosition price cfg st position price_info .MANUAL) s
  s1.pending_orders.foldlM (fun st order =>
    match order.update_status .CANCELLED {} (st.current_time.getD 0) with
    | (_, none) => pure { st with pending_orders := st.pending_orders.erase order }
    | (_, some e) => .error e) s1

/-- SimulatedBroker._generate_time_series: the sorted deduplicated union of
all bar timestamps of the loaded historical data restricted to
[start_date, end_date].  Each loaded (symbol, timeframe) series is modelled
by its key and its list of bar timestamps. -/
def generateTimeSeries (historical_data : List (String × List ℤ))
    (start_date end_date : ℤ) : List ℤ :=
  let timestamps := (historical_data.map (fun kv =>
    kv.2.filter (fun t => decide (start_date ≤ t ∧ t ≤ end_date)))).flatten
  (timestamps.dedup).insertionSort (· ≤ ·)

/-- The statistics dict of SimulatedBroker._calculate_backtest_statistics. -/
structure BacktestStatistics where
  total_trades : ℕ := 0
  winning_trades : ℕ := 0
  losing_trades : ℕ := 0
  total_profit : ℚ := 0
  total_loss : ℚ := 0
  win_rate : ℚ := 0
  profit_factor : ℚ := 0
  average_profit : ℚ := 0
  average_loss : ℚ := 0
  max_drawdown : ℚ := 0
  max_drawdown_percentage : ℚ := 0
  deriving DecidableEq

/-- SimulatedBroker._calculate_backtest_statistics.  The counting and ratio
statistics follow the source; the drawdown block begins with
current_balance = self.account_info[initial_deposit-key], and because the
account_info dict has no such key this raises KeyError whenever
executed_trades is nonempty (the empty case returns early before the
drawdown block).  The drawdown walk after the lookup transliterates the
source loop over trades sorted by close_time. -/
def calculateBacktestStatistics (s : BState) : Except String BacktestStatistics :=
  let statistics : BacktestStatistics := { total_trades := s.executed_trades.length }
  if s.executed_trades.isEmpty then .ok statistics
  else
    let counts := s.executed_trades.foldl (fun (st : BacktestStatistics) trade =>
      if trade.profit > 0 then
        { st with winning_trades := st.winning_trades + 1,
                  total_profit := st.total_profit + trade.profit }
      else
        { st with losing_trades := st.losing_trades + 1,
                  total_loss := st.total_loss + |trade.profit| }) statistics
    let st1 := if counts.total_trades > 0 then
        { counts with win_rate := (counts.winning_trades : ℚ) / (counts.total_trades : ℚ) }
      else counts
    let st2 := if counts.winning_trades > 0 then
        { st1 with average_profit := st1.total_profit / (counts.winning_trades : ℚ) }
      else st1
    let st3 := if counts.losing_trades > 0 then
        { st2 with average_loss := st2.total_loss / (counts.losing_trades : ℚ) }
      else st2
    let st4 := if counts.total_loss > 0 then
        { st3 with profit_factor := st3.total_profit / st3.total_loss }
      else st3
    match accountInfoGet s "initial_deposit" with
    | none => .error "KeyError: initial_deposit"
    | some initial_deposit =>
      let sortedTrades := s.executed_trades.insertionSort
        (fun a b => a.close_time.getD 0 ≤ b.close_time.getD 0)
      let r := sortedTrades.foldl (fun (acc : List ℚ × ℚ × ℚ × ℚ) trade =>
        let (balance_peaks, current_balance, max_dd, max_dd_pct) := acc
        let current_balance := current_balance + trade.profit
        if balance_peaks = [] ∨ balance_peaks.getLast?.getD 0 < current_balance then
          (balance_peaks ++ [current_balance], current_balance, max_dd, max_dd_pct)
        else
          let peak := (balance_peaks.max?).getD 0
          let drawdown := peak - current_balance
          let drawdown_pct := if peak > 0 then drawdown / peak else 0
          if drawdown > max_dd then
            (balance_peaks, current_balance, drawdown, drawdown_pct)
          else
            (balance_peaks, current_balance, max_dd, max_dd_pct))
        ([], initial_deposit, 0, 0)
      .ok { st4 with max_drawdown := r.2.2.1,
                     max_drawdown_percentage := r.2.2.2 * 100 }

/-- The results dict returned by SimulatedBroker.run_backtest. -/
structure BacktestResults where
  initial_balance : ℚ
  final_balance : ℚ
  profit : ℚ
  trades : List Trade
  equity_curve : List (ℤ × ℚ × ℚ)
  statistics : BacktestStatistics
  deriving DecidableEq

/-- SimulatedBroker.run_backtest: reset the book and account, replay the
generated time series tick by tick, force-close and cancel what remains,
and assemble the results.  The final close uses the price environment at
the clock value left by the last tick (start_date when no tick ran).  An
exception raised anywhere in the replay, the epilogue or the statistics
aborts the call with no result, modelled by the Except error. -/
def runBacktest (historical_data : List (String × List ℤ))
    (priceAt : ℤ → PriceFn) (cfg : ConfigFn)
    (initial_balance leverage : ℚ) (start_date end_date : ℤ) :
    Except String BacktestResults := do
  let s0 : BState :=
    { balance := initial_balance, equity := initial_balance, margin := 0,
      free_margin := initial_balance, profit := 0, leverage := leverage,
      current_time := some start_date }
  let time_series := generateTimeSeries historical_data start_date end_date
  let sEnd ← time_series.foldlM (runTick priceAt cfg) s0
  let priceFinal : PriceFn :=
    match sEnd.current_time with
    | some t => priceAt t
    | none => fun _ => none
  let sFin ← endOfRun priceFinal cfg sEnd
  let statistics ← calculateBacktestStatistics sFin
  pure { initial_balance := initial_balance,
         final_balance := sFin.balance,
         profit := sFin.balance - initial_balance,
         trades := sFin.executed_trades,
         equity_curve := sFin.equity_curve,
         statistics := statistics }

/-- A market-data bar, reduced to its index timestamp and a value standing
for the OHLCV payload; equality of stored bar lists is what content
identity of the persisted store means.  Timestamps are in minutes, so the
overlap window timedelta(minutes=10) is the integer 10. -/
structure Bar where
  time : ℤ
  value : ℚ
  deriving DecidableEq

/-- The external MT5 feed modelled as the list of bars it can serve. -/
abbrev Feed := List Bar

/-- DataFeed._fetch_mt5_data for a date-range request: the feed bars whose
timestamp lies in [start_date, end_date]. -/
def fetchMT5Data (feed : Feed) (start_date end_date : ℤ) : List Bar :=
  feed.filter (fun b => decide (start_date ≤ b.time ∧ b.time ≤ end_date))

/-- Sorting a bar list by timestamp (pandas sort_index). -/
def sortBars (l : List Bar) : List Bar :=
  l.insertionSort (fun a b => a.time ≤ b.time)

/-- DataFeed.fetch_historical_data for an explicit [start_date, end_date]
window.  The persisted per-(symbol, timeframe) store is an Option bar list,
none when no cache file exists.  The result pairs the store content after
the call with the returned bar sequence.  With no (or empty) cached data
the whole window is fetched and persisted; with cached data ending before
end_date the delta is fetched from 10 minutes before the cached latest
timestamp, bars whose timestamp already occurs in the cache are dropped,
and the full merged sorted series is persisted; otherwise the cached slice
is returned without touching the store. -/
def fetchHistoricalData (feed : Feed) (store : Option (List Bar))
    (start_date end_date : ℤ) : Option (List Bar) × List Bar :=
  match store with
  | none =>
    let data := fetchMT5Data feed start_date end_date
    if data ≠ [] then (some data, data) else (store, [])
  | some cached =>
    if cached = [] then
      let data := fetchMT5Data feed start_date end_date
      if data ≠ [] then (some data, data) else (store, [])
    else
      let latest_cached_time := ((cached.map Bar.time).max?).getD 0
      if end_date > latest_cached_time then
        let new_start_date := latest_cached_time - 10
        let missing_data := fetchMT5Data feed new_start_date end_date
        if missing_data ≠ [] then
          let missing_dedup := missing_data.filter
            (fun b => !(cached.any (fun c => c.time == b.time)))
          let updated_data := sortBars (cached ++ missing_dedup)
          (some updated_data, updated_data.filter
            (fun b => decide (start_date ≤ b.time ∧ b.time ≤ end_date)))
        else
          (store, cached.filter (fun b => decide (start_date ≤ b.time ∧ b.time ≤ end_date)))
      else
        (store, cached.filter (fun b => decide (start_date ≤ b.time ∧ b.time ≤ end_date)))

/-- Profit formula as the spec states it (section 4.4): diff over pip value
times size times contract size, minus commission and swap, with diff being
close quote minus executed price for BUY and the reverse for SELL. -/
def specProfit (direction : TradeDirection)
    (executed_price close_quote pip_value contract_size size commission swap : ℚ) : ℚ :=
  let diff : ℚ :=
    match direction with
    | .BUY => close_quote - executed_price
    | .SELL => executed_price - close_quote
  diff / pip_value * size * contract_size - commission - swap

/-- Margin formula as the spec states it (section 4.4): executed price times
size times contract size over leverage, with leverage replaced by 100 when
the configured leverage is not positive. -/
def specMargin (executed_price size contract_size leverage : ℚ) : ℚ :=
  executed_price * size * contract_size / (if leverage ≤ 0 then 100 else leverage)

/-- Drawdown walk as the spec states it (section 4.5): running balance from
the initial deposit, running peak, record drawdown and its percentage
whenever the balance is below the peak, return the maximum observed
drawdown and its percentage. -/
def specDrawdownWalk (initial_deposit : ℚ) (profits : List ℚ) : ℚ × ℚ :=
  let r := profits.foldl (fun (acc : ℚ × ℚ × ℚ × ℚ) p =>
    let (balance, peak, max_dd, max_dd_pct) := acc
    let balance := balance + p
    let peak := max peak balance
    if balance < peak then
      let dd := peak - balance
      let dd_pct := dd / peak
      if dd > max_dd then (balance, peak, dd, dd_pct)
      else (balance, peak, max_dd, max_dd_pct)
    else (balance, peak, max_dd, max_dd_pct)) (initial_deposit, initial_deposit, 0, 0)
  (r.2.2.1, r.2.2.2)

/-- A fresh PENDING trade used to instantiate witnesses. -/
def samplePending : Trade :=
  { symbol := "EURUSDm", direction := .BUY }

/-- A concrete quote with bid 1.19 and ask 1.20. -/
def sampleQuote : Quote :=
  { bid := 119/100, ask := 6/5 }

/-- A price environment serving sampleQuote for every symbol. -/
def samplePriceFn : PriceFn := fun _ => some sampleQuote

/-- A symbol configuration with pip value 0.0001 and contract size 100000. -/
def sampleCfg : ConfigFn := fun _ =>
  { pip_value := some (1/10000), contract_size := some 100000 }

/-- A pending LIMIT BUY order with entry price 1.20. -/
def sampleLimitOrder : Trade :=
  { symbol := "EURUSDm", direction := .BUY, order_type := .LIMIT,
    size := some (1/10), entry_price := some (6/5) }

/-- A broker state holding only sampleLimitOrder. -/
def samplePendingState : BState :=
  { pending_orders := [sampleLimitOrder], balance := 10000, equity := 10000,
    free_margin := 10000, leverage := 100, current_time := some 5 }

/-- An open BUY position whose stop loss 1.19 is touched by sampleQuote. -/
def sampleOpenBuySL : Trade :=
  { symbol := "EURUSDm", direction := .BUY, status := .OPEN,
    size := some (1/10), executed_price := some (11/10),
    stop_loss := some (119/100) }

/-- A broker state holding only sampleOpenBuySL. -/
def sampleSLState : BState :=
  { open_positions := [sampleOpenBuySL], balance := 10000, equity := 10000,
    free_margin := 10000, leverage := 100, current_time := some 5 }

/-- An open BUY position whose take profit 1.19 is touched by sampleQuote. -/
def sampleOpenBuyTP : Trade :=
  { symbol := "EURUSDm", direction := .BUY, status := .OPEN,
    size := some (1/10), executed_price := some (11/10),
    take_profit := some (119/100) }

/-- A broker state holding only sampleOpenBuyTP. -/
def sampleTPState : BState :=
  { open_positions := [sampleOpenBuyTP], balance := 10000, equity := 10000,
    free_margin := 10000, leverage := 100, current_time := some 5 }

/-- An open BUY position whose stop loss 1.19 and take profit 0.90 are both
satisfied at bid 1.19 (stop_loss above take_profit). -/
def sampleOpenBuyBoth : Trade :=
  { symbol := "EURUSDm", direction := .BUY, status := .OPEN,
    size := some (1/10), executed_price := some (11/10),
    stop_loss := some (119/100), take_profit := some (9/10) }

/-- A broker state holding only sampleOpenBuyBoth. -/
def sampleBothState : BState :=
  { open_positions := [sampleOpenBuyBoth], balance := 10000, equity := 10000,
    free_margin := 10000, leverage := 100, current_time := some 5 }

/-- A pending LIMIT BUY at 1.20 whose stop loss 1.19 is already touched by
the quote that triggers the entry. -/
def sampleLimitOrderSL : Trade :=
  { symbol := "EURUSDm", direction := .BUY, order_type := .LIMIT,
    size := some (1/10), entry_price := some (6/5),
    stop_loss := some (119/100) }

/-- A broker state holding only sampleLimitOrderSL, with no open position. -/
def sampleTickState : BState :=
  { pending_orders := [sampleLimitOrderSL], balance := 10000, equity := 10000,
    free_margin := 10000, leverage := 100, current_time := some 4 }

/-- The spec profit formula applied to a position marked to market: the
close quote is the bid for BUY and the ask for SELL at the current price of
the symbol of the position. -/
def specPositionProfit (price : PriceFn) (cfg : ConfigFn) (p : Trade) : ℚ :=
  let close_quote : ℚ :=
    match price p.symbol with
    | some q =>
      match p.direction with
      | .BUY => q.bid
      | .SELL => q.ask
    | none => 0
  specProfit p.direction (p.executed_price.getD 0) close_quote
    ((cfg p.symbol).pip_value.getD (1/10000))
    ((cfg p.symbol).contract_size.getD 100000)
    (p.size.getD 0) p.commission p.swap

/-- The spec margin formula applied to a position. -/
def specPositionMargin (cfg : ConfigFn) (leverage : ℚ) (p : Trade) : ℚ :=
  specMargin (p.executed_price.getD 0) (p.size.getD 0)
    ((cfg p.symbol).contract_size.getD 100000) leverage

/-- A book state left after a last tick: one open BUY position and one
pending LIMIT order remain. -/
def sampleEndState : BState :=
  { open_positions := [sampleOpenBuySL], pending_orders := [sampleLimitOrder],
    balance := 10000, equity := 10000, free_margin := 10000, leverage := 100,
    current_time := some 9 }

/-! Theorems -/

/-- Bind on a successful Except computation reduces to the continuation. -/
theorem ok_bind {α β : Type} (a : α) (f : α → Except String β) :
    (Except.ok a >>= f) = f a := rfl

/-- Bind on a failed Except computation keeps the error. -/
theorem error_bind {α β : Type} (e : String) (f : α → Except String β) :
    ((Except.error e : Except String α) >>= f) = .error e := rfl

/-- C1: Trade.update_status implements the strict state machine
PENDING to OPEN, CANCELLED or REJECTED and OPEN to CLOSED or CANCELLED,
with CLOSED, CANCELLED and REJECTED terminal: the call succeeds exactly on
these edges, additionally requiring executed_price to enter OPEN and
close_price and profit to enter CLOSED; every other request fails with an
error, and after a failed attempt the trade, all fields included, is
unchanged. -/
theorem C1_update_status_state_machine (t : Trade) (ns : TradeStatus)
    (k : UpdateKwargs) (now : ℤ) :
    ((t.update_status ns k now).2 = none ↔
      ((t.status = .PENDING ∧ (ns = .OPEN ∨ ns = .CANCELLED ∨ ns = .REJECTED)) ∨
       (t.status = .OPEN ∧ (ns = .CLOSED ∨ ns = .CANCELLED))) ∧
      (ns = .OPEN → k.executed_price.isSome) ∧
      (ns = .CLOSED → k.close_price.isSome ∧ k.profit.isSome)) ∧
    ((t.update_status ns k now).2.isSome → (t.update_status ns k now).1 = t) ∧
    ((t.update_status ns k now).2 = none → (t.update_status ns k now).1.status = ns) := by
  cases hs : t.status <;> cases ns <;>
    cases hep : k.executed_price <;> cases hcp : k.close_price <;>
      cases hpr : k.profit <;>
        simp_all [Trade.update_status, validTransitions]

/-- C1 witness: a concrete PENDING trade opens with an executed price, and
the transition is one of the listed edges. -/
theorem C1_update_status_state_machine_witness :
    (samplePending.update_status .OPEN { executed_price := some (6/5) } 0).2 = none :=
  (C1_update_status_state_machine samplePending .OPEN
      { executed_price := some (6/5) } 0).1.mpr
    (by refine ⟨Or.inl ⟨rfl, Or.inl rfl⟩, fun _ => rfl, fun h => by cases h⟩)

/-- The cancel loop of the run_backtest epilogue: every PENDING order is
transitioned to CANCELLED and removed from pending_orders, and nothing else
in the state changes. -/
theorem endOfRun_cancel_fold :
    ∀ (l : List Trade) (s : BState),
      (∀ o ∈ l, o.status = .PENDING) →
      s.pending_orders = l →
      (l.foldlM (fun st order =>
          (match order.update_status .CANCELLED {} (st.current_time.getD 0) with
           | (_, none) => pure { st with pending_orders := st.pending_orders.erase order }
           | (_, some e) => .error e : Except String BState)) s) =
        .ok { s with pending_orders := [] }
  | [], s, _, hs => by
    rw [List.foldlM_nil, ← hs]
    rfl
  | o :: l, s, h, hs => by
    have hstat := h o (List.mem_cons_self o l)
    have herase : s.pending_orders.erase o = l := by
      rw [hs]; exact List.erase_cons_head o l
    have ih := endOfRun_cancel_fold l { s with pending_orders := s.pending_orders.erase o }
      (fun x hx => h x (List.mem_cons_of_mem o hx)) (by simpa using herase)
    rw [List.foldlM_cons]
    have hstep : (o.update_status .CANCELLED {} (s.current_time.getD 0)) =
        ({ o with status := .CANCELLED }, none) := by
      simp [Trade.update_status, validTransitions, hstat]
    simp only [hstep]
    rw [show (pure { s with pending_orders := s.pending_orders.erase o } :
        Except String BState) >>= _ = _ from rfl]
    exact ih

/-- C8 counterexample: with no loaded historical data the replay window
produces an empty timestamp sequence, yet run_backtest does not return a
failure result: it returns an ordinary fully-populated result with the
initial balance, no trades, an empty equity curve and zeroed statistics. -/
theorem C8_empty_window_counterexample :
    generateTimeSeries [] 0 10 = [] ∧
    runBacktest [] (fun _ _ => none) (fun _ => {}) 10000 100 0 10 =
      .ok { initial_balance := 10000, final_balance := 10000, profit := 0,
            trades := [], equity_curve := [], statistics := {} } ∧
    ¬ ∃ e, runBacktest [] (fun _ _ => none) (fun _ => {}) 10000 100 0 10 =
      .error e := by
  refine ⟨rfl, ?_, ?_⟩
  · simp [runBacktest, generateTimeSeries, endOfRun,
      calculateBacktestStatistics, ok_bind]
  · intro ⟨e, he⟩
    rw [show runBacktest [] (fun _ _ => none) (fun _ => {}) 10000 100 0 10 =
        .ok { initial_balance := 10000, final_balance := 10000, profit := 0,
              trades := [], equity_curve := [], statistics := {} } from by
      simp [runBacktest, generateTimeSeries, endOfRun,
        calculateBacktestStatistics, ok_bind]] at he
    cases he

/-- C8 amended: when the replay window produces an empty timestamp
sequence, run_backtest does not abort; it returns an ordinary success
result with final_balance equal to initial_balance, zero profit, no trades,
an empty equity curve and zeroed statistics, the same non-error outcome
shape as a run with timestamps and no executed trades. -/
theorem C8_empty_window_returns_ordinary
    (historical_data : List (String × List ℤ)) (priceAt : ℤ → PriceFn)
    (cfg : ConfigFn) (ib lev : ℚ) (sd ed : ℤ)
    (hempty : generateTimeSeries historical_data sd ed = []) :
    runBacktest historical_data priceAt cfg ib lev sd ed =
      .ok { initial_balance := ib, final_balance := ib, profit := 0,
            trades := [], equity_curve := [], statistics := {} } := by
  simp [runBacktest, hempty, endOfRun, calculateBacktestStatistics, ok_bind]

/-- C8 witness: a concrete input whose timestamp union inside the window is
empty (all bar timestamps fall outside the window). -/
theorem C8_empty_window_returns_ordinary_witness :
    runBacktest [("EURUSDm_M15", [50, 60])] (fun _ _ => none) (fun _ => {})
        10000 100 0 10 =
      .ok { initial_balance := 10000, final_balance := 10000, profit := 0,
            trades := [], equity_curve := [], statistics := {} } :=
  C8_empty_window_returns_ordinary [("EURUSDm_M15", [50, 60])]
    (fun _ _ => none) (fun _ => {}) 10000 100 0 10 (by decide)

/-- A closed trade with profit +500 closing at time 1. -/
def sampleClosedTrade1 : Trade :=
  { symbol := "EURUSDm", direction := .BUY, status := .CLOSED,
    close_time := some 1, _profit := some 500 }

/-- A closed trade with profit -800 closing at time 2. -/
def sampleClosedTrade2 : Trade :=
  { symbol := "EURUSDm", direction := .BUY, status := .CLOSED,
    close_time := some 2, _profit := some (-800) }

/-- A closed trade with profit +200 closing at time 3. -/
def sampleClosedTrade3 : Trade :=
  { symbol := "EURUSDm", direction := .BUY, status := .CLOSED,
    close_time := some 3, _profit := some 200 }

/-- A post-run broker state holding the three closed example trades, with
the spec example initial deposit of 10000 realized into the balance. -/
def sampleStatsState : BState :=
  { executed_trades := [sampleClosedTrade1, sampleClosedTrade2, sampleClosedTrade3],
    balance := 9900, equity := 9900, free_margin := 9900, leverage := 100 }

/-- C7: the drawdown walk cannot run.  The account_info dict has no
initial_deposit key (the deposit was stored under balance and then
mutated), so _calculate_backtest_statistics raises KeyError for every
nonempty closed-trade history; on the spec example (deposit 10000, profits
+500, -800, +200 in close-time order) the statistics computation therefore
fails, while the walk described by the spec yields max drawdown 800 and
percentage 800/10500. -/
theorem C7_drawdown_key_error :
    accountInfoGet sampleStatsState "initial_deposit" = none ∧
    calculateBacktestStatistics sampleStatsState =
      .error "KeyError: initial_deposit" ∧
    specDrawdownWalk 10000 [500, -800, 200] = (800, 800/10500) := by
  refine ⟨rfl, ?_, ?_⟩
  · rfl
  · norm_num [specDrawdownWalk]

/-- C5 counterexample: a feed with a bar 5 minutes before the requested
start.  The first call caches only the in-window bar at time 2; the second
call, seeing end 30 beyond the cached latest 2, refetches from 2 - 10 = -8,
picks up the pre-start bar at -5 and persists it, so the stored series
changes between the two calls even though the feed did not (the returned
slice is the same both times). -/
theorem C5_idempotence_counterexample :
    (fetchHistoricalData [⟨-5, 1⟩, ⟨2, 1⟩] none 0 30).1 = some [⟨2, 1⟩] ∧
    (fetchHistoricalData [⟨-5, 1⟩, ⟨2, 1⟩]
        (fetchHistoricalData [⟨-5, 1⟩, ⟨2, 1⟩] none 0 30).1 0 30).1 =
      some [⟨-5, 1⟩, ⟨2, 1⟩] ∧
    (fetchHistoricalData [⟨-5, 1⟩, ⟨2, 1⟩]
        (fetchHistoricalData [⟨-5, 1⟩, ⟨2, 1⟩] none 0 30).1 0 30).1 ≠
      (fetchHistoricalData [⟨-5, 1⟩, ⟨2, 1⟩] none 0 30).1 ∧
    (fetchHistoricalData [⟨-5, 1⟩, ⟨2, 1⟩]
        (fetchHistoricalData [⟨-5, 1⟩, ⟨2, 1⟩] none 0 30).1 0 30).2 =
      (fetchHistoricalData [⟨-5, 1⟩, ⟨2, 1⟩] none 0 30).2 := by
  refine ⟨?_, ?_, ?_, ?_⟩ <;> decide

/-- C5 amended: both calls return the same bar sequence, and the second
call leaves the persisted store unchanged provided no feed bar earlier than
the requested start falls inside the 10-minute overlap window before the
cached latest timestamp (in particular the whole call pair is then
idempotent); the counterexample above shows the proviso is necessary. -/
theorem C5_cache_idempotent (feed : Feed) (sd ed : ℤ)
    (hfeed : feed.Pairwise (fun a b => a.time < b.time))
    (hover : ∀ b ∈ feed,
      ((fetchMT5Data feed sd ed).map Bar.time).max?.getD 0 - 10 ≤ b.time →
      b.time ≤ ed → sd ≤ b.time) :
    fetchHistoricalData feed (fetchHistoricalData feed none sd ed).1 sd ed =
      fetchHistoricalData feed none sd ed := by
  by_cases hd : fetchMT5Data feed sd ed = []
  · simp [fetchHistoricalData, hd]
  · have hmem : ∀ b ∈ fetchMT5Data feed sd ed, sd ≤ b.time ∧ b.time ≤ ed := by
      intro b hb
      have := List.of_mem_filter hb
      simpa using this
    have hfilter_self : (fetchMT5Data feed sd ed).filter
        (fun b => decide (sd ≤ b.time ∧ b.time ≤ ed)) = fetchMT5Data feed sd ed := by
      apply List.filter_eq_self.mpr
      intro b hb
      simpa using hmem b hb
    have hr1 : fetchHistoricalData feed none sd ed =
        (some (fetchMT5Data feed sd ed), fetchMT5Data feed sd ed) := by
      simp [fetchHistoricalData, hd]
    rw [hr1]
    set data := fetchMT5Data feed sd ed with hdata
    set latest := ((data.map Bar.time).max?).getD 0 with hlatest
    by_cases hend : ed > latest
    · by_cases hmiss : fetchMT5Data feed (latest - 10) ed = []
      · simp [fetchHistoricalData, hd, hmiss, hfilter_self, ← hlatest, hend]
        exact hmem
      · have hdedup : (fetchMT5Data feed (latest - 10) ed).filter
            (fun b => !(data.any (fun c => c.time == b.time))) = [] := by
          apply List.filter_eq_nil_iff.mpr
          intro b hb
          have hbf : b ∈ feed := List.mem_of_mem_filter hb
          have hbw : latest - 10 ≤ b.time ∧ b.time ≤ ed := by
            have := List.of_mem_filter hb
            simpa using this
          have hsd : sd ≤ b.time := hover b hbf hbw.1 hbw.2
          have hbd : b ∈ data := by
            rw [hdata]
            exact List.mem_filter.mpr ⟨hbf, by simp [hsd, hbw.2]⟩
          simp only [Bool.not_eq_true']
          simp only [Bool.not_eq_false]
          exact List.any_eq_true.mpr ⟨b, hbd, by simp⟩
        have hsorted : data.Pairwise (fun a b => a.time ≤ b.time) := by
          have := List.Pairwise.filter
            (fun b => decide (sd ≤ b.time ∧ b.time ≤ ed)) hfeed
          exact this.imp (fun h => le_of_lt h)
        have hsort_eq : sortBars data = data := by
          unfold sortBars
          exact List.Sorted.insertionSort_eq hsorted
        simp [fetchHistoricalData, hd, hmiss, hdedup, hsort_eq, hfilter_self,
          ← hlatest, hend]
        exact hmem
    · simp [fetchHistoricalData, hd, hfilter_self, ← hlatest, hend]
      exact hmem

/-- C5 witness: a feed whose bars all lie inside the requested window (no
bar precedes the start within the overlap), for which the repeated call is
idempotent in both the store and the returned slice. -/
theorem C5_cache_idempotent_witness :
    fetchHistoricalData [⟨2, 1⟩, ⟨4, 7⟩]
        (fetchHistoricalData [⟨2, 1⟩, ⟨4, 7⟩] none 0 30).1 0 30 =
      fetchHistoricalData [⟨2, 1⟩, ⟨4, 7⟩] none 0 30 :=
  C5_cache_idempotent [⟨2, 1⟩, ⟨4, 7⟩] 0 30 (by decide) (by decide)

/-- C6 counterexample: the cache holds a bar (5, 100) and the feed serves a
fresh bar (5, 200) at the same timestamp plus a new bar (6, 300).  The
delta update drops the fresh bar at the shared timestamp and keeps the
cached one: the persisted series is [(5, 100), (6, 300)], not the
[(5, 200), (6, 300)] that preferring freshly fetched bars would give. -/
theorem C6_dedup_preference_counterexample :
    (fetchHistoricalData [⟨5, 200⟩, ⟨6, 300⟩] (some [⟨5, 100⟩]) 0 6).1 =
      some [⟨5, 100⟩, ⟨6, 300⟩] ∧
    (fetchHistoricalData [⟨5, 200⟩, ⟨6, 300⟩] (some [⟨5, 100⟩]) 0 6).1 ≠
      some [⟨5, 200⟩, ⟨6, 300⟩] := by
  refine ⟨?_, ?_⟩ <;> decide

/-- C6 amended: on a delta update (cached data exists and the requested end
exceeds the cached latest timestamp, with a nonempty refetch), the refetch
window starts 10 minutes before the cached latest timestamp, and the
persisted store is the full merged time-sorted series: every persisted bar
is a cached bar or a bar of that overlap refetch, every cached bar is
persisted, a freshly fetched bar is persisted whenever its timestamp is not
already cached, and at a shared timestamp the previously cached bar (not
the freshly fetched one) is the one persisted. -/
theorem C6_delta_update_merge (feed : Feed) (cached : List Bar) (sd ed : ℤ)
    (hne : cached ≠ [])
    (hnodup : cached.Pairwise (fun a b => a.time ≠ b.time))
    (hend : ed > ((cached.map Bar.time).max?).getD 0)
    (hmiss : fetchMT5Data feed (((cached.map Bar.time).max?).getD 0 - 10) ed ≠ []) :
    ∃ st', (fetchHistoricalData feed (some cached) sd ed).1 = some st' ∧
      (∀ b ∈ st', b ∈ cached ∨ b ∈ fetchMT5Data feed
        (((cached.map Bar.time).max?).getD 0 - 10) ed) ∧
      (∀ b ∈ cached, b ∈ st') ∧
      (∀ b ∈ fetchMT5Data feed (((cached.map Bar.time).max?).getD 0 - 10) ed,
        (∀ c ∈ cached, c.time ≠ b.time) → b ∈ st') ∧
      (∀ b ∈ st', ∀ c ∈ cached, b.time = c.time → b = c) ∧
      st'.Pairwise (fun a b => a.time ≤ b.time) := by
  haveI hTot : IsTotal Bar (fun a b => a.time ≤ b.time) :=
    ⟨fun a b => le_total a.time b.time⟩
  haveI hTrans : IsTrans Bar (fun a b => a.time ≤ b.time) :=
    ⟨fun _ _ _ h1 h2 => le_trans h1 h2⟩
  set latest := ((cached.map Bar.time).max?).getD 0 with hlatest
  set missing := fetchMT5Data feed (latest - 10) ed with hmissing
  set dedup := missing.filter
    (fun b => !(cached.any (fun c => c.time == b.time))) with hdedup
  have hstore : (fetchHistoricalData feed (some cached) sd ed).1 =
      some (sortBars (cached ++ dedup)) := by
    simp [fetchHistoricalData, hne, ← hlatest, hend, ← hmissing, hmiss, hdedup]
  have hperm : List.Perm (sortBars (cached ++ dedup)) (cached ++ dedup) :=
    List.perm_insertionSort _ _
  refine ⟨sortBars (cached ++ dedup), hstore, ?_, ?_, ?_, ?_, ?_⟩
  · intro b hb
    have hb2 : b ∈ cached ++ dedup := hperm.mem_iff.mp hb
    rcases List.mem_append.mp hb2 with h | h
    · exact Or.inl h
    · exact Or.inr (by rw [hmissing] at *; exact List.mem_of_mem_filter h)
  · intro b hb
    exact hperm.mem_iff.mpr (List.mem_append.mpr (Or.inl hb))
  · intro b hb hfresh
    apply hperm.mem_iff.mpr
    apply List.mem_append.mpr
    apply Or.inr
    rw [hdedup]
    apply List.mem_filter.mpr
    refine ⟨hb, ?_⟩
    simp only [Bool.not_eq_true']
    simp only [List.any_eq_false]
    intro c hc
    simp [hfresh c hc]
  · intro b hb c hc htime
    have hb2 : b ∈ cached ++ dedup := hperm.mem_iff.mp hb
    rcases List.mem_append.mp hb2 with h | h
    · by_contra hne2
      have hsymm : Symmetric (fun a b : Bar => a.time ≠ b.time) :=
        fun _ _ h => h.symm
      exact (hnodup.forall hsymm h hc hne2) htime
    · exfalso
      rw [hdedup] at h
      have h2 := List.mem_filter.mp h
      have h3 := h2.2
      simp only [Bool.not_eq_true', List.any_eq_false] at h3
      have := h3 c hc
      simp [htime.symm] at this
  · exact List.sorted_insertionSort _ _

/-- C6 witness: the counterexample instance, through the amended theorem:
the cached bar (5, 100) survives the merge and the persisted bar at a
timestamp shared with the refetch is the cached one. -/
theorem C6_delta_update_merge_witness :
    ∃ st', (fetchHistoricalData [⟨5, 200⟩, ⟨6, 300⟩] (some [⟨5, 100⟩]) 0 6).1 =
        some st' ∧
      (∀ b ∈ ([⟨5, 100⟩] : List Bar), b ∈ st') ∧
      (∀ b ∈ st', ∀ c ∈ ([⟨5, 100⟩] : List Bar), b.time = c.time → b = c) := by
  obtain ⟨st', h1, -, h3, -, h5, -⟩ :=
    C6_delta_update_merge [⟨5, 200⟩, ⟨6, 300⟩] [⟨5, 100⟩] 0 6
      (by decide) (by decide) (by decide) (by decide)
  exact ⟨st', h1, h3, h5⟩

/-- Closing a position that has an executed price always raises: whatever
price_info holds, a close price is determinable (the explicit level, the
quote side, or the executed price itself), so _close_position reaches the
profit recompute and its failing attribute assignment before update_status
ever runs. -/
theorem closePosition_attribute_error (price : PriceFn) (cfg : ConfigFn)
    (st : BState) (p : Trade) (pi : PriceInfo) (r : CloseReason) (xp : ℚ)
    (hxp : p.executed_price = some xp) :
    closePosition price cfg st p pi r =
      .error "AttributeError: property Trade.profit has no setter" := by
  cases hdir : p.direction <;> cases hpi : pi.price
  · cases hb : pi.bid <;>
      simp [closePosition, calcPositionProfit, hxp, hdir, hpi, hb, error_bind]
  · simp [closePosition, calcPositionProfit, hxp, hdir, hpi, error_bind]
  · cases hb : pi.ask <;>
      simp [closePosition, calcPositionProfit, hxp, hdir, hpi, hb, error_bind]
  · simp [closePosition, calcPositionProfit, hxp, hdir, hpi, error_bind]

/-- C2: the zero-slippage fill contract holds for pending LIMIT BUY orders,
but the stop/target exit half of the claim never executes.  First part: a
pending LIMIT BUY order triggers during a tick exactly when the current ask
is at or below its entry_price and is then opened with executed_price equal
to entry_price regardless of the ask at trigger; when the ask is above the
entry price the book is unchanged.  Second and third parts: for an open BUY
position with an executed price whose stop-loss condition (bid at or below
stop_loss) or take-profit condition (bid at or above take_profit) holds,
the stop/target pass raises the AttributeError of the mark-to-market profit
recompute before testing any exit condition, so no close at the stop or
target level, no balance realization and no history move ever happens. -/
theorem C2_zero_slippage_fill_and_exit_error :
    (∀ (price : PriceFn) (s : BState) (o : Trade) (q : Quote) (ep : ℚ),
      s.pending_orders = [o] → o.order_type = .LIMIT → o.direction = .BUY →
      o.status = .PENDING → o.entry_price = some ep → price o.symbol = some q →
      (q.ask ≤ ep → ∃ o2,
          checkPendingOrders price s =
            .ok { s with pending_orders := [],
                         open_positions := s.open_positions ++ [o2] } ∧
          o2.executed_price = some ep ∧ o2.status = .OPEN ∧
          o2.symbol = o.symbol ∧ o2.direction = o.direction ∧
          o2.size = o.size ∧ o2.stop_loss = o.stop_loss ∧
          o2.take_profit = o.take_profit) ∧
      (ep < q.ask → checkPendingOrders price s = .ok s)) ∧
    (∀ (price : PriceFn) (cfg : ConfigFn) (s : BState) (p : Trade) (q : Quote)
       (xp sl : ℚ),
      s.open_positions = [p] → p.direction = .BUY →
      p.executed_price = some xp → p.stop_loss = some sl →
      price p.symbol = some q → q.bid ≤ sl →
      checkSLTP price cfg s =
        .error "AttributeError: property Trade.profit has no setter") ∧
    (∀ (price : PriceFn) (cfg : ConfigFn) (s : BState) (p : Trade) (q : Quote)
       (xp tp : ℚ),
      s.open_positions = [p] → p.direction = .BUY →
      p.executed_price = some xp → p.take_profit = some tp →
      price p.symbol = some q → tp ≤ q.bid →
      checkSLTP price cfg s =
        .error "AttributeError: property Trade.profit has no setter") := by
  refine ⟨?_, ?_, ?_⟩
  · intro price s o q ep hpd hot hdir hst hep hq
    constructor
    · intro hask
      refine ⟨{ o with executed_price := some ep,
                       open_time := some (s.current_time.getD (s.current_time.getD 0)),
                       status := .OPEN }, ?_, rfl, rfl, rfl, rfl, rfl, rfl, rfl⟩
      simp [checkPendingOrders, hpd, hot, hdir, hst, hep, hq, hask,
        Trade.update_status, validTransitions]
    · intro hask
      simp [checkPendingOrders, hpd, hot, hdir, hst, hep, hq, not_le.mpr hask]
  · intro price cfg s p q xp sl hop hdir hxp hsl hq hbid
    simp [checkSLTP, hop, hdir, hxp, hq, calcPositionProfit, error_bind]
  · intro price cfg s p q xp tp hop hdir hxp htp hq hbid
    simp [checkSLTP, hop, hdir, hxp, hq, calcPositionProfit, error_bind]

/-- C2 witness: at ask 1.20 the 1.20 LIMIT BUY fills at exactly 1.20; at
bid 1.19 a position with stop loss 1.19 (and one with take profit 1.19)
makes the stop/target pass raise instead of closing. -/
theorem C2_zero_slippage_fill_and_exit_error_witness :
    (∃ o2, checkPendingOrders samplePriceFn samplePendingState =
        .ok { samplePendingState with pending_orders := [],
                                      open_positions := [o2] } ∧
      o2.executed_price = some (6/5) ∧ o2.status = .OPEN) ∧
    checkSLTP samplePriceFn sampleCfg sampleSLState =
      .error "AttributeError: property Trade.profit has no setter" ∧
    checkSLTP samplePriceFn sampleCfg sampleTPState =
      .error "AttributeError: property Trade.profit has no setter" := by
  refine ⟨?_, ?_, ?_⟩
  · obtain ⟨o2, h1, h2, h3, -⟩ :=
      (C2_zero_slippage_fill_and_exit_error.1 samplePriceFn samplePendingState
        sampleLimitOrder sampleQuote (6/5) rfl rfl rfl rfl rfl rfl).1
        (by norm_num [sampleQuote])
    exact ⟨o2, by simpa [samplePendingState] using h1, h2, h3⟩
  · exact C2_zero_slippage_fill_and_exit_error.2.1 samplePriceFn sampleCfg
      sampleSLState sampleOpenBuySL sampleQuote (11/10) (119/100)
      rfl rfl rfl rfl rfl (by norm_num [sampleQuote])
  · exact C2_zero_slippage_fill_and_exit_error.2.2 samplePriceFn sampleCfg
      sampleTPState sampleOpenBuyTP sampleQuote (11/10) (119/100)
      rfl rfl rfl rfl rfl (by norm_num [sampleQuote])

/-- C3: the per-tick account recompute never completes when any open
position has an executed price and an available quote: the first such
position makes _update_account_info raise the AttributeError of the profit
recompute, so the claimed profit, margin, equity and free-margin equations
are never established for a nonempty position set.  The last two conjuncts
record what the spec formulas give on the concrete witness position
(mark-to-market profit at bid 1.19 from entry 1.10, size 0.1, pip value
0.0001, contract size 100000; margin at leverage 100). -/
theorem C3_account_recompute_attribute_error :
    (∀ (price : PriceFn) (cfg : ConfigFn) (s : BState) (p : Trade)
       (rest : List Trade),
      s.open_positions = p :: rest → p.executed_price.isSome →
      (price p.symbol).isSome →
      updateAccountInfo price cfg s =
        .error "AttributeError: property Trade.profit has no setter") ∧
    specPositionProfit samplePriceFn sampleCfg sampleOpenBuySL = 9000000 ∧
    specPositionMargin sampleCfg 100 sampleOpenBuySL = 110 := by
  refine ⟨?_, ?_, ?_⟩
  · intro price cfg s p rest hop hxpS hqS
    obtain ⟨xp, hxp⟩ := Option.isSome_iff_exists.mp hxpS
    obtain ⟨q, hq⟩ := Option.isSome_iff_exists.mp hqS
    cases hdir : p.direction <;>
      simp [updateAccountInfo, hop, hxp, hq, hdir, calcPositionProfit,
        error_bind]
  · norm_num [specPositionProfit, specProfit, samplePriceFn, sampleQuote,
      sampleCfg, sampleOpenBuySL]
  · norm_num [specPositionMargin, specMargin, sampleCfg, sampleOpenBuySL]

/-- C3 witness: the recompute on a concrete one-position state raises. -/
theorem C3_account_recompute_attribute_error_witness :
    updateAccountInfo samplePriceFn sampleCfg sampleSLState =
      .error "AttributeError: property Trade.profit has no setter" :=
  C3_account_recompute_attribute_error.1 samplePriceFn sampleCfg sampleSLState
    sampleOpenBuySL [] rfl rfl rfl

/-- C4: the end-of-run policy cannot complete when any open position
remains.  First part: with at least one remaining open position (which,
having been opened, carries an executed price), the epilogue raises the
AttributeError of the profit recompute inside _close_position before
update_status, so nothing is force-closed, the history gains nothing, and
run_backtest raises instead of returning the claimed result.  Second part:
the cancellation half alone does work: with no open positions, every
PENDING order is transitioned to CANCELLED, pending_orders is emptied, and
executed_trades is untouched, so a cancelled order never appears in the
closed-trade history. -/
theorem C4_end_of_run_attribute_error :
    (∀ (price : PriceFn) (cfg : ConfigFn) (s : BState) (p : Trade)
       (rest : List Trade),
      s.open_positions = p :: rest → p.executed_price.isSome →
      endOfRun price cfg s =
        .error "AttributeError: property Trade.profit has no setter") ∧
    (∀ (price : PriceFn) (cfg : ConfigFn) (s : BState),
      s.open_positions = [] →
      (∀ o ∈ s.pending_orders, o.status = .PENDING) →
      endOfRun price cfg s = .ok { s with pending_orders := [] }) := by
  constructor
  · intro price cfg s p rest hop hxpS
    obtain ⟨xp, hxp⟩ := Option.isSome_iff_exists.mp hxpS
    have hclose := closePosition_attribute_error price cfg s p
      (match price p.symbol with
       | some q => { bid := some q.bid, ask := some q.ask }
       | none => {}) .MANUAL xp hxp
    simp [endOfRun, hop, hclose, error_bind]
  · intro price cfg s hopn hpend
    have hcancel := endOfRun_cancel_fold s.pending_orders s hpend rfl
    simp only [endOfRun, hopn, List.foldlM_nil, pure_bind]
    simpa [hopn] using hcancel

/-- C4 witness: with one open BUY position and one pending LIMIT order
remaining the epilogue raises; with only the pending order it cancels it
and leaves the history empty. -/
theorem C4_end_of_run_attribute_error_witness :
    endOfRun samplePriceFn sampleCfg sampleEndState =
      .error "AttributeError: property Trade.profit has no setter" ∧
    endOfRun samplePriceFn sampleCfg samplePendingState =
      .ok { samplePendingState with pending_orders := [] } := by
  constructor
  · exact C4_end_of_run_attribute_error.1 samplePriceFn sampleCfg
      sampleEndState sampleOpenBuySL [] rfl rfl
  · exact C4_end_of_run_attribute_error.2 samplePriceFn sampleCfg
      samplePendingState rfl (by
        intro o ho
        simp only [samplePendingState] at ho
        simp at ho
        subst ho
        rfl)

/-- C9: the tick sequencing is as claimed in the code (pending matching,
then stop/target matching, then the account recompute, then the equity
sample) but a tick that opens a position can never complete: after the
pending LIMIT BUY fills at its entry price, the stop/target pass raises
the AttributeError of the mark-to-market profit recompute on the
just-opened position, before its stop loss is tested and before any
account recompute or equity sample is taken, so the whole tick (and
run_backtest with it) raises. -/
theorem C9_tick_order_attribute_error (priceAt : ℤ → PriceFn) (cfg : ConfigFn)
    (s : BState) (o : Trade) (q : Quote) (t : ℤ) (ep sz sl : ℚ)
    (hpd : s.pending_orders = [o]) (hopn : s.open_positions = [])
    (hot : o.order_type = .LIMIT) (hdir : o.direction = .BUY)
    (hst : o.status = .PENDING) (hep : o.entry_price = some ep)
    (hsz : o.size = some sz) (hsl : o.stop_loss = some sl)
    (hq : priceAt t o.symbol = some q) (hask : q.ask ≤ ep) (hbid : q.bid ≤ sl) :
    runTick priceAt cfg s t =
      .error "AttributeError: property Trade.profit has no setter" := by
  simp [runTick, checkPendingOrders, checkSLTP, calcPositionProfit,
    Trade.update_status, validTransitions, ok_bind, error_bind,
    hpd, hopn, hot, hdir, hst, hep, hsz, hsl, hq, hask, hbid]

/-- C9 witness: at a tick with ask 1.20 and bid 1.19, the pending 1.20
LIMIT BUY with stop loss 1.19 fills and the tick then raises in the
stop/target pass. -/
theorem C9_tick_order_attribute_error_witness :
    runTick (fun _ => samplePriceFn) sampleCfg sampleTickState 5 =
      .error "AttributeError: property Trade.profit has no setter" :=
  C9_tick_order_attribute_error (fun _ => samplePriceFn) sampleCfg
    sampleTickState sampleLimitOrderSL sampleQuote 5 (6/5) (1/10) (119/100)
    rfl rfl rfl rfl rfl rfl rfl rfl rfl (by norm_num [sampleQuote])
    (by norm_num [sampleQuote])

/-- C10: the source does place the stop-loss test before the take-profit
test, but at an input satisfying both conditions at once neither test is
ever reached: the mark-to-market profit recompute at the top of the loop
body raises the AttributeError for any open position with an executed
price and a quote, so the position is not closed at all, with either
reason. -/
theorem C10_stop_loss_attribute_error (price : PriceFn) (cfg : ConfigFn)
    (s : BState) (p : Trade) (q : Quote) (xp sl tp : ℚ)
    (hop : s.open_positions = [p]) (hdir : p.direction = .BUY)
    (hxp : p.executed_price = some xp) (hsl : p.stop_loss = some sl)
    (htp : p.take_profit = some tp) (hq : price p.symbol = some q)
    (hbid : q.bid ≤ sl) (hbid2 : tp ≤ q.bid) :
    checkSLTP price cfg s =
      .error "AttributeError: property Trade.profit has no setter" := by
  simp [checkSLTP, hop, hdir, hxp, hq, calcPositionProfit, error_bind]

/-- C10 witness: at bid 1.19 a BUY position with stop loss 1.19 and take
profit 0.90 (both conditions holding) makes the pass raise before either
test. -/
theorem C10_stop_loss_attribute_error_witness :
    checkSLTP samplePriceFn sampleCfg sampleBothState =
      .error "AttributeError: property Trade.profit has no setter" :=
  C10_stop_loss_attribute_error samplePriceFn sampleCfg sampleBothState
    sampleOpenBuyBoth sampleQuote (11/10) (119/100) (9/10)
    rfl rfl rfl rfl rfl rfl (by norm_num [sampleQuote])
    (by norm_num [sampleQuote])

end Supurgi
